import Mathlib

/-!
# Hanzi dictionary page component (`src/App.jsx`)

A shallow embedding of the `App` component: its four pieces of React state,
the validation / fetch / render logic, and an event-level transition system
for the page (text edits, button clicks, key presses, lookup completions).

Modelling conventions.

* A JavaScript string is its sequence of UTF-16 code units (`JSString`), so
  that `.length`, `.trim()` and `encodeURIComponent` are the real operations.
* A decoded JSON payload is a `JSVal`.  JSON numbers are restricted to
  integers (the code only compares `code` with `200` and tests truthiness).
* Text that only the JavaScript engine determines (the message of a built-in
  `TypeError` / `URIError`, `ToString` of a non-string value) is a field of
  the parameter `Engine`.
* A handler is a function from the state snapshot of the current render to
  the list of effects it performs, in program order.  React applies the
  state setters in that order.
* `fetchData` has two `await`s (`fetch`, `response.json()`).  No state is
  read or written between them, so the two are resolved together by one
  `FetchOutcome`.
-/

namespace HanziDictionary

/-! ## JavaScript values -/

/-- A JavaScript string: its UTF-16 code units. -/
abbrev JSString := List Nat

/-- UTF-16 code units of one Unicode code point. -/
def utf16Units (c : Nat) : List Nat :=
  if c < 0x10000 then [c]
  else [0xD800 + (c - 0x10000) / 0x400, 0xDC00 + (c - 0x10000) % 0x400]

/-- The JavaScript string denoted by a source literal. -/
def js (s : String) : JSString :=
  s.toList.flatMap (fun ch => utf16Units ch.toNat)

/-- A decoded JSON value (plus `undefined`, the value of a missing property). -/
inductive JSVal where
  | undefined : JSVal
  | null : JSVal
  | bool (b : Bool) : JSVal
  | num (n : Int) : JSVal
  | str (s : JSString) : JSVal
  | arr (items : List JSVal) : JSVal
  | obj (fields : List (String × JSVal)) : JSVal

/-- A thrown error object; only its `message` is ever read.  Everything
thrown inside `fetchData` is an error object: the `Error`s the code creates,
the `TypeError` / `URIError` of the engine, and the rejection reasons of
`fetch` and `response.json()`. -/
structure JSError where
  name : String
  message : JSString

/-- Engine-determined text and conversions. -/
structure Engine where
  /-- The message of the `URIError` thrown by `encodeURIComponent`. -/
  uriErrorMessage : JSString
  /-- The message of the `TypeError` thrown when reading property `k` of
  `undefined` or `null`. -/
  typeErrorMessage : JSVal → String → JSString
  /-- The abstract operation `ToString` on a value that is not a string. -/
  toStringValue : JSVal → Except JSError JSString

/-- The truthiness of a value (`ToBoolean`). -/
def JSVal.truthy : JSVal → Bool
  | .undefined => false
  | .null => false
  | .bool b => b
  | .num n => n != 0
  | .str s => !s.isEmpty
  | .arr _ => true
  | .obj _ => true

/-- The own property `k` of a value that is neither `undefined` nor `null`,
for the property names the component uses (none of them is defined on a
built-in prototype). -/
def JSVal.field (v : JSVal) (k : String) : JSVal :=
  match v with
  | .obj fields => (fields.lookup k).getD .undefined
  | _ => .undefined

/-- Property read `v.k`: a `TypeError` on `undefined` and `null`. -/
def JSVal.getProp (eng : Engine) (v : JSVal) (k : String) : Except JSError JSVal :=
  match v with
  | .undefined => .error ⟨"TypeError", eng.typeErrorMessage v k⟩
  | .null => .error ⟨"TypeError", eng.typeErrorMessage v k⟩
  | _ => .ok (v.field k)

/-- Indexed read `v[0]`. -/
def JSVal.getIndex0 (eng : Engine) (v : JSVal) : Except JSError JSVal :=
  match v with
  | .undefined => .error ⟨"TypeError", eng.typeErrorMessage v "0"⟩
  | .null => .error ⟨"TypeError", eng.typeErrorMessage v "0"⟩
  | .arr items => .ok (items.headD .undefined)
  | .str s => .ok (match s with
      | [] => .undefined
      | u :: _ => .str [u])
  | .obj fields => .ok ((fields.lookup "0").getD .undefined)
  | _ => .ok .undefined

/-- The test `v !== 200` (strict inequality with a number). -/
def JSVal.strictNe200 : JSVal → Bool
  | .num n => n != 200
  | _ => true

/-- The message of `new Error(v)` for a value `v` that is not `undefined`. -/
def newErrorMessage (eng : Engine) (v : JSVal) : Except JSError JSString :=
  match v with
  | .str s => .ok s
  | _ => eng.toStringValue v

/-! ## String operations -/

/-- Code units that `String.prototype.trim` strips (WhiteSpace and
LineTerminator). -/
def isTrimUnit (u : Nat) : Bool :=
  u == 0x09 || u == 0x0A || u == 0x0B || u == 0x0C || u == 0x0D || u == 0x20
    || u == 0xA0 || u == 0x1680 || (0x2000 ≤ u && u ≤ 0x200A)
    || u == 0x2028 || u == 0x2029 || u == 0x202F || u == 0x205F
    || u == 0x3000 || u == 0xFEFF

/-- The method `String.prototype.trim`. -/
def trim (s : JSString) : JSString :=
  ((s.dropWhile isTrimUnit).reverse.dropWhile isTrimUnit).reverse

/-- Characters that `encodeURIComponent` leaves as they are. -/
def isUnreserved (u : Nat) : Bool :=
  (0x41 ≤ u && u ≤ 0x5A) || (0x61 ≤ u && u ≤ 0x7A) || (0x30 ≤ u && u ≤ 0x39)
    || u == 0x2D || u == 0x5F || u == 0x2E || u == 0x21 || u == 0x7E
    || u == 0x2A || u == 0x27 || u == 0x28 || u == 0x29

/-- The upper-case hexadecimal digit of a value below 16. -/
def hexDigit (d : Nat) : Nat :=
  if d < 10 then 0x30 + d else 0x41 + (d - 10)

/-- The escape `%XX` of one octet. -/
def percentOctet (b : Nat) : JSString :=
  [0x25, hexDigit (b / 16), hexDigit (b % 16)]

/-- UTF-8 octets of a code point. -/
def utf8Octets (c : Nat) : List Nat :=
  if c < 0x80 then [c]
  else if c < 0x800 then [0xC0 + c / 0x40, 0x80 + c % 0x40]
  else if c < 0x10000 then
    [0xE0 + c / 0x1000, 0x80 + (c / 0x40) % 0x40, 0x80 + c % 0x40]
  else
    [0xF0 + c / 0x40000, 0x80 + (c / 0x1000) % 0x40,
      0x80 + (c / 0x40) % 0x40, 0x80 + c % 0x40]

/-- The function `encodeURIComponent`: unreserved units are copied, any other
code point is written as its escaped UTF-8 octets, and an unpaired surrogate
throws a `URIError`. -/
def encodeURIComponent (eng : Engine) : JSString → Except JSError JSString
  | [] => .ok []
  | u :: rest =>
    if isUnreserved u then
      (encodeURIComponent eng rest).map (fun r => u :: r)
    else if 0xDC00 ≤ u ∧ u ≤ 0xDFFF then
      .error ⟨"URIError", eng.uriErrorMessage⟩
    else if 0xD800 ≤ u ∧ u ≤ 0xDBFF then
      match rest with
      | [] => .error ⟨"URIError", eng.uriErrorMessage⟩
      | v :: rest2 =>
        if 0xDC00 ≤ v ∧ v ≤ 0xDFFF then
          (encodeURIComponent eng rest2).map (fun r =>
            (utf8Octets ((u - 0xD800) * 0x400 + (v - 0xDC00) + 0x10000)).flatMap percentOctet ++ r)
        else .error ⟨"URIError", eng.uriErrorMessage⟩
    else
      (encodeURIComponent eng rest).map (fun r => (utf8Octets u).flatMap percentOctet ++ r)

/-! ## Component state and effects -/

/-- The constant `API_CONFIG.BASE_URL`. -/
def BASE_URL : JSString := js "https://apis.tianapi.com/xhzd/index"

/-- The constant `API_CONFIG.API_KEY`. -/
def API_KEY : JSString := js ""

/-- The four `useState` cells of `App`. -/
structure State where
  query : JSString
  result : JSVal
  loading : Bool
  error : JSString

/-- The state of the first render. -/
def State.initial : State :=
  { query := js "", result := .null, loading := false, error := js "" }

/-- What a handler does, in program order. -/
inductive Effect where
  | setQuery (v : JSString) : Effect
  | setResult (r : JSVal) : Effect
  | setLoading (b : Bool) : Effect
  | setError (m : JSString) : Effect
  | fetch (url : JSString) : Effect
  | consoleError (err : JSError) : Effect

/-- A state setter replaces its cell; the other effects leave the state. -/
def State.apply (s : State) : Effect → State
  | .setQuery v => { s with query := v }
  | .setResult r => { s with result := r }
  | .setLoading b => { s with loading := b }
  | .setError m => { s with error := m }
  | .fetch _ => s
  | .consoleError _ => s

/-- The state after a list of effects. -/
def State.run (s : State) (effs : List Effect) : State :=
  effs.foldl State.apply s

/-- Is the effect a network call. -/
def Effect.isFetch : Effect → Bool
  | .fetch _ => true
  | _ => false

/-- Is the effect `setLoading(true)`. -/
def Effect.isSetLoadingTrue : Effect → Bool
  | .setLoading true => true
  | _ => false

/-- The function `validateInput`: the effects performed and the value returned. -/
def validateInput (s : State) : List Effect × Bool :=
  if !(JSVal.str (trim s.query)).truthy then
    ([.setError (js "请输入一个汉字")], false)
  else if s.query.length != 1 then
    ([.setError (js "请输入单个汉字")], false)
  else
    ([], true)

/-- The expression `a || b` on two strings. -/
def orElse (a b : JSString) : JSString :=
  if (JSVal.str a).truthy then a else b

/-- How the two awaited promises of `fetchData` settle: the body of the
response is only read when `response.ok` holds. -/
inductive BodyOutcome where
  | rejected (err : JSError) : BodyOutcome
  | json (data : JSVal) : BodyOutcome

/-- How the network call settles. -/
inductive FetchOutcome where
  | rejected (err : JSError) : FetchOutcome
  | response (ok : Bool) (body : BodyOutcome) : FetchOutcome

/-- The `try` block of `fetchData` after `fetch` has settled: the effects it
performs, or the error it throws (no effect precedes a throw). -/
def fetchDataBody (eng : Engine) (o : FetchOutcome) : Except JSError (List Effect) :=
  match o with
  | .rejected err => .error err
  | .response ok body =>
    if !ok then .error ⟨"Error", js "网络响应异常"⟩
    else
      match body with
      | .rejected err => .error err
      | .json data =>
        match data.getProp eng "code" with
        | .error e => .error e
        | .ok code =>
          if code.strictNe200 then
            match data.getProp eng "msg" with
            | .error e => .error e
            | .ok msg =>
              match newErrorMessage eng (if msg.truthy then msg else .str (js "查询失败")) with
              | .error e => .error e
              | .ok m => .error ⟨"Error", m⟩
          else
            match data.getProp eng "result" with
            | .error e => .error e
            | .ok result =>
              match result.getProp eng "list" with
              | .error e => .error e
              | .ok list =>
                match list.getIndex0 eng with
                | .error e => .error e
                | .ok first => .ok [.setResult first]

/-- The `catch` and `finally` blocks of `fetchData`, after the `try` block has
ended normally or by a throw. -/
def catchFinally (r : Except JSError (List Effect)) : List Effect :=
  (match r with
    | .ok effs => effs
    | .error err =>
      [.setError (orElse err.message (js "查询失败，请稍后重试")), .consoleError err])
    ++ [.setLoading false]

/-- The function `fetchData` up to its first `await`: the request URL is
built and the call is made; if `encodeURIComponent` throws, the `catch` and
`finally` blocks run at once and no call is made. -/
def fetchDataStart (eng : Engine) (s : State) : List Effect :=
  match encodeURIComponent eng s.query with
  | .error err => catchFinally (.error err)
  | .ok word => [.fetch (BASE_URL ++ js "?key=" ++ API_KEY ++ js "&word=" ++ word)]

/-- The function `fetchData` from the moment the network call settles. -/
def fetchDataResume (eng : Engine) (o : FetchOutcome) : List Effect :=
  catchFinally (fetchDataBody eng o)

/-- The function `handleSearch` up to the first `await` of `fetchData`. -/
def handleSearch (eng : Engine) (s : State) : List Effect :=
  let v := validateInput s
  if !v.2 then v.1
  else v.1 ++ [.setLoading true, .setError (js ""), .setResult .null] ++ fetchDataStart eng s

/-- The function `handleKeyPress`. -/
def handleKeyPress (eng : Engine) (s : State) (key : JSString) : List Effect :=
  if key == js "Enter" then handleSearch eng s else []

/-- The `onChange` handler of the input. -/
def handleChange (value : JSString) : List Effect :=
  [.setQuery value]

/-- Submit run to completion with nothing in between: `handleSearch`, and if
it made a network call, the rest of `fetchData` on the outcome of the call. -/
def submit (eng : Engine) (s : State) (o : FetchOutcome) : List Effect :=
  let effs := handleSearch eng s
  if effs.any Effect.isFetch then effs ++ fetchDataResume eng o else effs

/-! ## Render -/

/-- The content of the result section. -/
structure ResultView where
  reading : JSVal
  hanzi : JSVal
  bushou : JSVal
  bihua : JSVal
  wubi : JSVal
  bishun : JSVal
  definition : Option JSVal
  explanation : Option JSVal

/-- What `App` returns, as far as it depends on the state. -/
structure View where
  inputValue : JSString
  submitDisabled : Bool
  spinner : Bool
  errorText : Option JSString
  resultSection : Option ResultView
  welcome : Bool

/-- The JSX returned by `App`. -/
def render (s : State) : View :=
  { inputValue := s.query
    submitDisabled := s.loading
    spinner := s.loading
    errorText := if (JSVal.str s.error).truthy then some s.error else none
    resultSection :=
      if s.result.truthy then
        some
          { reading :=
              if (s.result.field "pyyb").truthy then s.result.field "pyyb"
              else s.result.field "py"
            hanzi := s.result.field "hanzi"
            bushou := s.result.field "bushou"
            bihua := s.result.field "bihua"
            wubi := s.result.field "wubi"
            bishun := s.result.field "bishun"
            definition :=
              if (s.result.field "content").truthy then some (s.result.field "content")
              else none
            explanation :=
              if (s.result.field "explain").truthy then some (s.result.field "explain")
              else none }
      else none
    welcome := !s.result.truthy && !s.loading }

/-! ## The page as a transition system -/

/-- The component state together with the network calls that have not
settled yet. -/
structure World where
  ui : State
  inflight : List JSString

/-- The page after the first render. -/
def World.initial : World :=
  { ui := State.initial, inflight := [] }

/-- One effect on the page: a network call joins the calls in flight. -/
def World.apply (w : World) : Effect → World
  | .fetch url => { w with inflight := w.inflight ++ [url] }
  | e => { w with ui := w.ui.apply e }

/-- The page after a list of effects. -/
def World.run (w : World) (effs : List Effect) : World :=
  effs.foldl World.apply w

/-- What can happen to the page. -/
inductive Event where
  | change (value : JSString) : Event
  | click : Event
  | keyPress (key : JSString) : Event
  | complete (i : Nat) (o : FetchOutcome) : Event

/-- One event.  The button is rendered with `disabled={loading}`, so a click
reaches `handleSearch` only when `loading` is false; the input has no such
guard on `onKeyPress`. -/
def step (eng : Engine) (w : World) : Event → World
  | .change value => w.run (handleChange value)
  | .click => if (render w.ui).submitDisabled then w else w.run (handleSearch eng w.ui)
  | .keyPress key => w.run (handleKeyPress eng w.ui key)
  | .complete i o =>
    if i < w.inflight.length then
      ({ w with inflight := w.inflight.eraseIdx i }).run (fetchDataResume eng o)
    else w

/-- The page after a list of events. -/
def runEvents (eng : Engine) (w : World) (evs : List Event) : World :=
  evs.foldl (step eng) w

/-- Is the event a key press. -/
def Event.isKeyPress : Event → Bool
  | .keyPress _ => true
  | _ => false

/-- The events of an orderly session: text edits and completions at any
time; a submit (click or Enter) only while `loading` is false, with a query
that passes validation or, when the query fails validation, with no result
on display.  A click on the disabled button does nothing and is allowed. -/
def Event.orderly (w : World) : Event → Bool
  | .change _ => true
  | .click => w.ui.loading || (validateInput w.ui).2 || !w.ui.result.truthy
  | .keyPress key =>
    key != js "Enter" || (!w.ui.loading && ((validateInput w.ui).2 || !w.ui.result.truthy))
  | .complete _ _ => true

/-- The pages reachable from the first render by orderly events. -/
inductive Reachable (eng : Engine) : World → Prop where
  | initial : Reachable eng World.initial
  | step (w : World) (ev : Event) :
      Reachable eng w → ev.orderly w = true → Reachable eng (step eng w ev)

/-! ## Sample data -/

/-- An engine with the messages of V8. -/
def sampleEngine : Engine :=
  { uriErrorMessage := js "URI malformed"
    typeErrorMessage := fun _ _ => js "Cannot read properties of undefined"
    toStringValue := fun _ => .ok (js "[object Object]") }

/-- A result record for the character U+6C34. -/
def sampleRecord : JSVal :=
  .obj [("hanzi", .str (js "水")), ("py", .str (js "shuǐ")), ("bushou", .str (js "水")),
    ("bihua", .str (js "4")), ("wubi", .str (js "III")), ("bishun", .str (js "...")),
    ("content", .str (js "...")), ("explain", .str (js ""))]

/-- A success payload holding `sampleRecord`. -/
def samplePayload : JSVal :=
  .obj [("code", .num 200), ("result", .obj [("list", .arr [sampleRecord])])]

/-- A success payload with an empty list. -/
def emptyListPayload : JSVal :=
  .obj [("code", .num 200), ("msg", .str (js "success")), ("result", .obj [("list", .arr [])])]

/-- A logical-error payload with a message. -/
def errorPayload : JSVal :=
  .obj [("code", .num 250), ("msg", .str (js "数据返回为空"))]

/-- The state after typing the character U+6C34 into the fresh page. -/
def sampleState : State :=
  { State.initial with query := js "水" }

/-! ## Basic facts -/

theorem validateInput_valid (s : State) (hv : (validateInput s).2 = true) :
    (validateInput s).1 = [] ∧ trim s.query ≠ [] ∧ s.query.length = 1 := by
  unfold validateInput at hv ⊢
  by_cases h1 : trim s.query = []
  · simp [h1, JSVal.truthy] at hv
  · by_cases h2 : s.query.length = 1
    · simp [h1, h2, JSVal.truthy]
    · simp [h1, h2, JSVal.truthy] at hv

theorem validateInput_invalid (s : State) (hv : (validateInput s).2 = false) :
    (trim s.query = [] ∧ (validateInput s).1 = [.setError (js "请输入一个汉字")]) ∨
    (trim s.query ≠ [] ∧ s.query.length ≠ 1 ∧
      (validateInput s).1 = [.setError (js "请输入单个汉字")]) := by
  unfold validateInput at hv ⊢
  by_cases h1 : trim s.query = []
  · simp [h1, JSVal.truthy]
  · by_cases h2 : s.query.length = 1
    · simp [h1, h2, JSVal.truthy] at hv
    · simp [h1, h2, JSVal.truthy]

theorem handleSearch_valid (eng : Engine) (s : State) (hv : (validateInput s).2 = true) :
    handleSearch eng s =
      [.setLoading true, .setError (js ""), .setResult .null] ++ fetchDataStart eng s := by
  simp [handleSearch, hv, (validateInput_valid s hv).1]

theorem handleSearch_invalid (eng : Engine) (s : State) (hv : (validateInput s).2 = false) :
    handleSearch eng s = (validateInput s).1 := by
  simp [handleSearch, hv]

theorem fetchDataStart_cases (eng : Engine) (s : State) :
    (∃ word, encodeURIComponent eng s.query = .ok word ∧
        fetchDataStart eng s =
          [.fetch (BASE_URL ++ js "?key=" ++ API_KEY ++ js "&word=" ++ word)]) ∨
    (∃ err, encodeURIComponent eng s.query = .error err ∧
        fetchDataStart eng s =
          [.setError (orElse err.message (js "查询失败，请稍后重试")), .consoleError err,
            .setLoading false]) := by
  unfold fetchDataStart
  cases h : encodeURIComponent eng s.query with
  | error err => right; exact ⟨err, rfl, by simp [catchFinally]⟩
  | ok word => left; exact ⟨word, rfl, rfl⟩

theorem orElse_ne_nil (a b : JSString) (hb : b ≠ []) : orElse a b ≠ [] := by
  unfold orElse
  cases a with
  | nil => simpa [JSVal.truthy] using hb
  | cons x xs => simp [JSVal.truthy]

theorem fallback_ne_nil : js "查询失败，请稍后重试" ≠ [] := by decide

/-- After a valid query, either exactly one call is made and the handler is
suspended, or `encodeURIComponent` threw and the handler has finished. -/
theorem handleSearch_valid_cases (eng : Engine) (s : State) (hv : (validateInput s).2 = true) :
    (∃ url, handleSearch eng s =
        [.setLoading true, .setError (js ""), .setResult .null, .fetch url]) ∨
    (∃ err, handleSearch eng s =
        [.setLoading true, .setError (js ""), .setResult .null,
          .setError (orElse err.message (js "查询失败，请稍后重试")), .consoleError err,
          .setLoading false]) := by
  rw [handleSearch_valid eng s hv]
  rcases fetchDataStart_cases eng s with ⟨word, _, h⟩ | ⟨err, _, h⟩
  · left; exact ⟨_, by rw [h]; rfl⟩
  · right; exact ⟨err, by rw [h]; rfl⟩

/-- When a valid submit made its call, the submit run to completion is the
synchronous part followed by the rest of `fetchData`. -/
theorem submit_of_call (eng : Engine) (s : State) (o : FetchOutcome)
    (hv : (validateInput s).2 = true)
    (hcall : (handleSearch eng s).any Effect.isFetch = true) :
    ∃ url, submit eng s o =
      [.setLoading true, .setError (js ""), .setResult .null, .fetch url]
        ++ fetchDataResume eng o := by
  rcases handleSearch_valid_cases eng s hv with ⟨url, h⟩ | ⟨err, h⟩
  · exact ⟨url, by simp [submit, h, Effect.isFetch]⟩
  · rw [h] at hcall
    simp [Effect.isFetch] at hcall

theorem getProp_of_field (eng : Engine) (v : JSVal) (k : String)
    (h : v.field k ≠ .undefined) (k2 : String) : v.getProp eng k2 = .ok (v.field k2) := by
  cases v <;> simp [JSVal.field, JSVal.getProp] at h ⊢

/-- The `try` block ends normally only by storing a result. -/
theorem fetchDataBody_ok (eng : Engine) (o : FetchOutcome) (effs : List Effect)
    (h : fetchDataBody eng o = .ok effs) : ∃ r, effs = [.setResult r] := by
  unfold fetchDataBody at h
  cases o with
  | rejected err => simp at h
  | response ok body =>
    cases ok with
    | false => simp at h
    | true =>
      cases body with
      | rejected err => simp at h
      | json data =>
        simp only [Bool.not_true, Bool.false_eq_true, if_false] at h
        cases hc : data.getProp eng "code" with
        | error e => simp [hc] at h
        | ok code =>
          cases hs : code.strictNe200 with
          | true =>
            simp only [hc, hs, if_true] at h
            cases hm : data.getProp eng "msg" with
            | error e => simp [hm] at h
            | ok msg =>
              simp only [hm] at h
              cases hn : newErrorMessage eng (if msg.truthy then msg else .str (js "查询失败")) with
              | error e => simp [hn] at h
              | ok m => simp [hn] at h
          | false =>
            simp only [hc, hs] at h
            cases hr : data.getProp eng "result" with
            | error e => simp [hr] at h
            | ok result =>
              simp only [hr] at h
              cases hl : result.getProp eng "list" with
              | error e => simp [hl] at h
              | ok list =>
                simp only [hl] at h
                cases hi : list.getIndex0 eng with
                | error e => simp [hi] at h
                | ok first =>
                  simp [hi] at h
                  exact ⟨first, h.symm⟩

/-! ## Submit -/

/-- The rest of `fetchData` on an HTTP-ok payload with `code` 200 whose
`result.list` is an array. -/
theorem fetchDataResume_code200 (eng : Engine) (data : JSVal) (items : List JSVal)
    (hcode : data.field "code" = .num 200)
    (hlist : (data.field "result").field "list" = .arr items) :
    fetchDataResume eng (.response true (.json data)) =
      [.setResult (items.headD .undefined), .setLoading false] := by
  have h1 : ∀ k, data.getProp eng k = .ok (data.field k) :=
    getProp_of_field eng data "code" (by rw [hcode]; simp)
  have h2 : ∀ k, (data.field "result").getProp eng k = .ok ((data.field "result").field k) :=
    getProp_of_field eng _ "list" (by rw [hlist]; simp)
  simp [fetchDataResume, fetchDataBody, catchFinally, h1, h2, hcode, hlist,
    JSVal.strictNe200, JSVal.getIndex0]

/-- The rest of `fetchData` on an HTTP-ok payload that is an object whose
`code` is not 200. -/
theorem fetchDataBody_logical_error (eng : Engine) (fields : List (String × JSVal))
    (hcode : (JSVal.obj fields).field "code" ≠ .num 200) :
    fetchDataBody eng (.response true (.json (.obj fields))) =
      match newErrorMessage eng
          (if ((JSVal.obj fields).field "msg").truthy then (JSVal.obj fields).field "msg"
            else .str (js "查询失败")) with
      | .error e => .error e
      | .ok m => .error ⟨"Error", m⟩ := by
  have hs : ((JSVal.obj fields).field "code").strictNe200 = true := by
    cases h : (JSVal.obj fields).field "code" <;> simp [JSVal.strictNe200]
    rename_i n
    intro hn
    exact hcode (by rw [h, hn])
  simp [fetchDataBody, JSVal.getProp, hs]

/-- C1: when the query passed validation and the call that was made is
answered HTTP-ok with a payload whose `code` is 200 and whose `result.list`
is a non-empty array, then after Submit has completed the stored result is
the first entry of the list, the error message is empty and `loading` is
false. -/
theorem submit_success_stores_first (eng : Engine) (s : State) (data first : JSVal)
    (rest : List JSVal)
    (hv : (validateInput s).2 = true)
    (hcall : (handleSearch eng s).any Effect.isFetch = true)
    (hcode : data.field "code" = .num 200)
    (hlist : (data.field "result").field "list" = .arr (first :: rest)) :
    (s.run (submit eng s (.response true (.json data)))).result = first ∧
    (s.run (submit eng s (.response true (.json data)))).error = js "" ∧
    (s.run (submit eng s (.response true (.json data)))).loading = false := by
  obtain ⟨url, h⟩ := submit_of_call eng s (.response true (.json data)) hv hcall
  rw [h, fetchDataResume_code200 eng data (first :: rest) hcode hlist]
  simp [State.run, State.apply]

/-- Witness for C1 on the sample payload. -/
theorem submit_success_stores_first_witness :
    (validateInput sampleState).2 = true ∧
    (sampleState.run (submit sampleEngine sampleState (.response true (.json samplePayload)))).result
      = sampleRecord ∧
    (sampleState.run (submit sampleEngine sampleState (.response true (.json samplePayload)))).error
      = js "" ∧
    (sampleState.run (submit sampleEngine sampleState (.response true (.json samplePayload)))).loading
      = false :=
  ⟨rfl, submit_success_stores_first sampleEngine sampleState samplePayload sampleRecord []
    rfl rfl rfl rfl⟩

/-- C2: if the trimmed query is empty, Submit only sets the error message
"请输入一个汉字"; otherwise, if the query is not exactly one code unit long,
Submit only sets the error message "请输入单个汉字".  In both cases, whatever
the network would answer, Submit makes no network call, never calls
`setLoading(true)`, and leaves `loading` and the result as they were. -/
theorem submit_invalid_no_call (eng : Engine) (s : State) (o : FetchOutcome) :
    (trim s.query = [] →
      submit eng s o = [.setError (js "请输入一个汉字")] ∧
      (s.run (submit eng s o)).error = js "请输入一个汉字") ∧
    (trim s.query ≠ [] → s.query.length ≠ 1 →
      submit eng s o = [.setError (js "请输入单个汉字")] ∧
      (s.run (submit eng s o)).error = js "请输入单个汉字") ∧
    (trim s.query = [] ∨ s.query.length ≠ 1 →
      (submit eng s o).any Effect.isFetch = false ∧
      (submit eng s o).any Effect.isSetLoadingTrue = false ∧
      (s.run (submit eng s o)).loading = s.loading ∧
      (s.run (submit eng s o)).result = s.result) := by
  have h1 : trim s.query = [] → submit eng s o = [.setError (js "请输入一个汉字")] := by
    intro h
    simp [submit, handleSearch, validateInput, h, JSVal.truthy, Effect.isFetch]
  have h2 : trim s.query ≠ [] → s.query.length ≠ 1 →
      submit eng s o = [.setError (js "请输入单个汉字")] := by
    intro h h'
    simp [submit, handleSearch, validateInput, h, h', JSVal.truthy, Effect.isFetch]
  refine ⟨fun h => ⟨h1 h, ?_⟩, fun h h' => ⟨h2 h h', ?_⟩, ?_⟩
  · rw [h1 h]; rfl
  · rw [h2 h h']; rfl
  · intro h
    by_cases ht : trim s.query = []
    · rw [h1 ht]
      simp [Effect.isFetch, Effect.isSetLoadingTrue, State.run, State.apply]
    · have hl : s.query.length ≠ 1 := by
        rcases h with h | h
        · exact absurd h ht
        · exact h
      rw [h2 ht hl]
      simp [Effect.isFetch, Effect.isSetLoadingTrue, State.run, State.apply]

/-- Witness for C2 on the inputs "ab" and "  " (two spaces). -/
theorem submit_invalid_no_call_witness :
    submit sampleEngine { State.initial with query := js "ab" } (.response true (.json samplePayload))
      = [.setError (js "请输入单个汉字")] ∧
    submit sampleEngine { State.initial with query := js "  " } (.response true (.json samplePayload))
      = [.setError (js "请输入一个汉字")] :=
  ⟨((submit_invalid_no_call sampleEngine { State.initial with query := js "ab" }
      (.response true (.json samplePayload))).2.1 (by decide) (by decide)).1,
   ((submit_invalid_no_call sampleEngine { State.initial with query := js "  " }
      (.response true (.json samplePayload))).1 (by decide)).1⟩

/-- C4: when the query passed validation and the call that was made is
answered HTTP-ok with an object payload whose `code` is not 200, then after
Submit has completed the error message is the payload's `msg` if that is a
non-empty string and "查询失败" if `msg` is absent or the empty string, the
result is `null` and `loading` is false. -/
theorem submit_logical_error (eng : Engine) (s : State) (fields : List (String × JSVal))
    (hv : (validateInput s).2 = true)
    (hcall : (handleSearch eng s).any Effect.isFetch = true)
    (hcode : (JSVal.obj fields).field "code" ≠ .num 200) :
    (∀ m, (JSVal.obj fields).field "msg" = .str m → m ≠ [] →
      (s.run (submit eng s (.response true (.json (.obj fields))))).error = m) ∧
    ((JSVal.obj fields).field "msg" = .undefined ∨ (JSVal.obj fields).field "msg" = .str [] →
      (s.run (submit eng s (.response true (.json (.obj fields))))).error = js "查询失败") ∧
    (s.run (submit eng s (.response true (.json (.obj fields))))).result = .null ∧
    (s.run (submit eng s (.response true (.json (.obj fields))))).loading = false := by
  obtain ⟨url, h⟩ := submit_of_call eng s (.response true (.json (.obj fields))) hv hcall
  have hb := fetchDataBody_logical_error eng fields hcode
  rw [h]
  refine ⟨?_, ?_, ?_, ?_⟩
  · intro m hm hne
    have ht : (JSVal.str m).truthy = true := by
      cases m with
      | nil => exact absurd rfl hne
      | cons x xs => rfl
    rw [hm] at hb
    simp only [ht, if_true, newErrorMessage] at hb
    simp [fetchDataResume, hb, catchFinally, State.run, State.apply, orElse, ht]
  · intro hm
    have hb2 : fetchDataBody eng (.response true (.json (.obj fields)))
        = .error ⟨"Error", js "查询失败"⟩ := by
      rcases hm with hm | hm <;> rw [hm] at hb <;>
        simpa [JSVal.truthy, newErrorMessage] using hb
    have ht : (JSVal.str (js "查询失败")).truthy = true := by decide
    simp [fetchDataResume, hb2, catchFinally, State.run, State.apply, orElse, ht]
  · cases hn : newErrorMessage eng
        (if ((JSVal.obj fields).field "msg").truthy then (JSVal.obj fields).field "msg"
          else .str (js "查询失败")) <;>
      rw [hn] at hb <;>
      simp [fetchDataResume, hb, catchFinally, State.run, State.apply]
  · cases hn : newErrorMessage eng
        (if ((JSVal.obj fields).field "msg").truthy then (JSVal.obj fields).field "msg"
          else .str (js "查询失败")) <;>
      rw [hn] at hb <;>
      simp [fetchDataResume, hb, catchFinally, State.run, State.apply]

/-- Witness for C4 on a payload with `code` 250 and a message. -/
theorem submit_logical_error_witness :
    (validateInput sampleState).2 = true ∧
    (sampleState.run (submit sampleEngine sampleState
      (.response true (.json errorPayload)))).error = js "数据返回为空" :=
  ⟨rfl, (submit_logical_error sampleEngine sampleState
      [("code", .num 250), ("msg", .str (js "数据返回为空"))] rfl rfl
      (by simp [JSVal.field, List.lookup])).1 (js "数据返回为空") rfl (by decide)⟩

/-- The `finally` block runs last: the state after the rest of `fetchData`
has `loading` false. -/
theorem run_catchFinally_loading (t : State) (r : Except JSError (List Effect)) :
    (t.run (catchFinally r)).loading = false := by
  simp [catchFinally, State.run, List.foldl_append, State.apply]

/-- Counterexample for C5: a valid query, the call is made and answered
HTTP-ok with `code` 200 and an empty `result.list`; after Submit has
completed the error message is empty. -/
theorem empty_list_leaves_error_empty :
    (validateInput sampleState).2 = true ∧
    (handleSearch sampleEngine sampleState).any Effect.isFetch = true ∧
    emptyListPayload.field "code" = .num 200 ∧
    (emptyListPayload.field "result").field "list" = .arr [] ∧
    ¬ ((sampleState.run (submit sampleEngine sampleState
        (.response true (.json emptyListPayload)))).error ≠ []) :=
  ⟨rfl, rfl, rfl, rfl, fun h => h rfl⟩

/-- C5 (amended): when the query passed validation and the call that was made
is answered HTTP-ok with a payload whose `code` is 200 and whose
`result.list` is the empty array, then after Submit has completed the error
message is empty, the stored result is `undefined`, `loading` is false, and
the page shows neither an error text nor a result section but the welcome
placeholder. -/
theorem submit_empty_list (eng : Engine) (s : State) (data : JSVal)
    (hv : (validateInput s).2 = true)
    (hcall : (handleSearch eng s).any Effect.isFetch = true)
    (hcode : data.field "code" = .num 200)
    (hlist : (data.field "result").field "list" = .arr []) :
    (s.run (submit eng s (.response true (.json data)))).error = js "" ∧
    (s.run (submit eng s (.response true (.json data)))).result = .undefined ∧
    (s.run (submit eng s (.response true (.json data)))).loading = false ∧
    (render (s.run (submit eng s (.response true (.json data))))).errorText = none ∧
    (render (s.run (submit eng s (.response true (.json data))))).resultSection = none ∧
    (render (s.run (submit eng s (.response true (.json data))))).welcome = true := by
  obtain ⟨url, h⟩ := submit_of_call eng s (.response true (.json data)) hv hcall
  rw [h, fetchDataResume_code200 eng data [] hcode hlist]
  have he : js "" = [] := rfl
  simp [State.run, State.apply, render, he, JSVal.truthy]

/-- Witness for C5 (amended) on the sample empty-list payload. -/
theorem submit_empty_list_witness :
    (sampleState.run (submit sampleEngine sampleState
      (.response true (.json emptyListPayload)))).result = .undefined ∧
    (render (sampleState.run (submit sampleEngine sampleState
      (.response true (.json emptyListPayload))))).welcome = true :=
  ⟨(submit_empty_list sampleEngine sampleState emptyListPayload rfl rfl rfl rfl).2.1,
   (submit_empty_list sampleEngine sampleState emptyListPayload rfl rfl rfl rfl).2.2.2.2.2⟩

/-- C6: `fetchData` is a total function of the outcome of the network call
(no error leaves it), and whatever the outcome (rejection, non-2xx response,
failure to decode, malformed payload, logical error, success) the state
after it has `loading` false, from any state; the same holds for a valid
Submit that made no call because `encodeURIComponent` threw.  When the call
of a valid Submit rejects or is answered non-2xx, the state after Submit has
a non-empty error message and the result `null`. -/
theorem submit_always_settles (eng : Engine) (s : State) (o : FetchOutcome) :
    (∀ t : State, (t.run (fetchDataResume eng o)).loading = false) ∧
    ((validateInput s).2 = true → (s.run (submit eng s o)).loading = false) ∧
    ((validateInput s).2 = true → (handleSearch eng s).any Effect.isFetch = true →
      ((∃ err, o = .rejected err) ∨ (∃ body, o = .response false body)) →
      (s.run (submit eng s o)).error ≠ [] ∧ (s.run (submit eng s o)).result = .null) := by
  refine ⟨fun t => run_catchFinally_loading t _, ?_, ?_⟩
  · intro hv
    rcases handleSearch_valid_cases eng s hv with ⟨url, h⟩ | ⟨err, h⟩
    · have hs : submit eng s o =
          [.setLoading true, .setError (js ""), .setResult .null, .fetch url]
            ++ fetchDataResume eng o := by
        simp [submit, h, Effect.isFetch]
      rw [hs, State.run, List.foldl_append]
      exact run_catchFinally_loading _ _
    · simp [submit, h, Effect.isFetch, State.run, State.apply]
  · intro hv hcall ho
    obtain ⟨url, h⟩ := submit_of_call eng s o hv hcall
    rw [h]
    rcases ho with ⟨err, rfl⟩ | ⟨body, rfl⟩
    · simp only [fetchDataResume, fetchDataBody, catchFinally, State.run, List.foldl,
        List.cons_append, List.nil_append, State.apply]
      exact ⟨orElse_ne_nil _ _ fallback_ne_nil, trivial⟩
    · have hm : orElse (js "网络响应异常") (js "查询失败，请稍后重试") ≠ [] :=
        orElse_ne_nil _ _ fallback_ne_nil
      simp only [fetchDataResume, fetchDataBody, catchFinally, State.run, List.foldl,
        List.cons_append, List.nil_append, State.apply]
      exact ⟨hm, trivial⟩

/-- Witness for C6 on a rejected call. -/
theorem submit_always_settles_witness :
    (validateInput sampleState).2 = true ∧
    (sampleState.run (submit sampleEngine sampleState
      (.rejected ⟨"TypeError", js "Failed to fetch"⟩))).loading = false ∧
    (sampleState.run (submit sampleEngine sampleState
      (.rejected ⟨"TypeError", js "Failed to fetch"⟩))).error ≠ [] ∧
    (sampleState.run (submit sampleEngine sampleState
      (.rejected ⟨"TypeError", js "Failed to fetch"⟩))).result = .null :=
  ⟨rfl,
   (submit_always_settles sampleEngine sampleState
      (.rejected ⟨"TypeError", js "Failed to fetch"⟩)).2.1 rfl,
   (submit_always_settles sampleEngine sampleState
      (.rejected ⟨"TypeError", js "Failed to fetch"⟩)).2.2 rfl rfl (Or.inl ⟨_, rfl⟩)⟩

/-! ## The page as a transition system -/

/-- The rest of `fetchData` either stores a result or reports an error, and
then clears `loading`. -/
theorem fetchDataResume_cases (eng : Engine) (o : FetchOutcome) :
    (∃ r, fetchDataResume eng o = [.setResult r, .setLoading false]) ∨
    (∃ err, fetchDataResume eng o =
      [.setError (orElse err.message (js "查询失败，请稍后重试")), .consoleError err,
        .setLoading false]) := by
  unfold fetchDataResume
  cases h : fetchDataBody eng o with
  | ok effs =>
    obtain ⟨r, rfl⟩ := fetchDataBody_ok eng o effs h
    left; exact ⟨r, rfl⟩
  | error err => right; exact ⟨err, rfl⟩

/-- The effects of `handleSearch`, by cases. -/
theorem handleSearch_cases (eng : Engine) (s : State) :
    ((validateInput s).2 = false ∧ ∃ m, m ≠ [] ∧ handleSearch eng s = [.setError m]) ∨
    ((validateInput s).2 = true ∧ ∃ url, handleSearch eng s =
        [.setLoading true, .setError (js ""), .setResult .null, .fetch url]) ∨
    ((validateInput s).2 = true ∧ ∃ err, handleSearch eng s =
        [.setLoading true, .setError (js ""), .setResult .null,
          .setError (orElse err.message (js "查询失败，请稍后重试")), .consoleError err,
          .setLoading false]) := by
  cases hv : (validateInput s).2 with
  | false =>
    left
    refine ⟨rfl, ?_⟩
    rw [handleSearch_invalid eng s hv]
    rcases validateInput_invalid s hv with ⟨_, h⟩ | ⟨_, _, h⟩
    · exact ⟨_, by decide, h⟩
    · exact ⟨_, by decide, h⟩
  | true =>
    right
    rcases handleSearch_valid_cases eng s hv with h | h
    · left; exact ⟨rfl, h⟩
    · right; exact ⟨rfl, h⟩

/-- An orderly submit keeps the invariant of orderly sessions. -/
theorem inv_handleSearch (eng : Engine) (w : World)
    (hl : w.ui.loading = false) (hi : w.inflight = [])
    (ho : (validateInput w.ui).2 = true ∨ w.ui.result.truthy = false) :
    ((w.run (handleSearch eng w.ui)).ui.loading = true →
      (w.run (handleSearch eng w.ui)).ui.error = [] ∧
      (w.run (handleSearch eng w.ui)).ui.result = .null ∧
      (w.run (handleSearch eng w.ui)).inflight.length = 1) ∧
    ((w.run (handleSearch eng w.ui)).ui.loading = false →
      (w.run (handleSearch eng w.ui)).inflight = [] ∧
      ((w.run (handleSearch eng w.ui)).ui.error = [] ∨
        (w.run (handleSearch eng w.ui)).ui.result.truthy = false)) := by
  have he : js "" = [] := rfl
  rcases handleSearch_cases eng w.ui with ⟨hv, m, _, h⟩ | ⟨_, url, h⟩ | ⟨_, err, h⟩
  · have hr : w.ui.result.truthy = false := by
      rcases ho with ho | ho
      · rw [hv] at ho; exact absurd ho (by simp)
      · exact ho
    rw [h]
    simp [World.run, World.apply, State.apply, hl, hi, hr]
  · rw [h]
    simp [World.run, World.apply, State.apply, hi, he]
  · rw [h]
    simp [World.run, World.apply, State.apply, hi, JSVal.truthy]

/-- One orderly event keeps the invariant of orderly sessions. -/
theorem inv_step (eng : Engine) (w : World) (ev : Event)
    (h1 : w.ui.loading = true →
      w.ui.error = [] ∧ w.ui.result = .null ∧ w.inflight.length = 1)
    (h2 : w.ui.loading = false →
      w.inflight = [] ∧ (w.ui.error = [] ∨ w.ui.result.truthy = false))
    (ho : ev.orderly w = true) :
    ((step eng w ev).ui.loading = true →
      (step eng w ev).ui.error = [] ∧ (step eng w ev).ui.result = .null ∧
      (step eng w ev).inflight.length = 1) ∧
    ((step eng w ev).ui.loading = false →
      (step eng w ev).inflight = [] ∧
      ((step eng w ev).ui.error = [] ∨ (step eng w ev).ui.result.truthy = false)) := by
  cases ev with
  | change value =>
    simpa [step, handleChange, World.run, World.apply, State.apply] using ⟨h1, h2⟩
  | click =>
    cases hl : w.ui.loading with
    | true => simpa [step, render, hl] using h1 hl
    | false =>
      have ho2 : (validateInput w.ui).2 = true ∨ w.ui.result.truthy = false := by
        simpa [Event.orderly, hl] using ho
      have := inv_handleSearch eng w hl (h2 hl).1 ho2
      simpa [step, render, hl] using this
  | keyPress key =>
    by_cases hk : key = js "Enter"
    · have ho3 : w.ui.loading = false ∧
          ((validateInput w.ui).2 = true ∨ w.ui.result.truthy = false) := by
        simpa [Event.orderly, hk] using ho
      have := inv_handleSearch eng w ho3.1 (h2 ho3.1).1 ho3.2
      simpa [step, handleKeyPress, hk] using this
    · simpa [step, handleKeyPress, hk, World.run] using ⟨h1, h2⟩
  | complete i o =>
    by_cases hi : i < w.inflight.length
    · have hl : w.ui.loading = true := by
        cases hl : w.ui.loading with
        | true => rfl
        | false =>
          rw [(h2 hl).1] at hi
          simp at hi
      obtain ⟨he, hr, hn⟩ := h1 hl
      have hnil : w.inflight.eraseIdx i = [] := by
        apply List.eq_nil_of_length_eq_zero
        rw [List.length_eraseIdx, if_pos hi, hn]
      rcases fetchDataResume_cases eng o with ⟨r, h⟩ | ⟨err, h⟩
      · simp [step, hi, h, World.run, World.apply, State.apply, hnil, he]
      · simp [step, hi, h, World.run, World.apply, State.apply, hnil, hr, JSVal.truthy]
    · simpa [step, hi] using ⟨h1, h2⟩

/-- The invariant of orderly sessions. -/
theorem reachable_inv (eng : Engine) (w : World) (h : Reachable eng w) :
    (w.ui.loading = true →
      w.ui.error = [] ∧ w.ui.result = .null ∧ w.inflight.length = 1) ∧
    (w.ui.loading = false →
      w.inflight = [] ∧ (w.ui.error = [] ∨ w.ui.result.truthy = false)) := by
  induction h with
  | initial =>
    refine ⟨fun h => ?_, fun _ => ⟨rfl, Or.inl rfl⟩⟩
    exact absurd h (by decide)
  | step w ev _ ho ih => exact inv_step eng w ev ih.1 ih.2 ho

/-- A query of one code unit that is neither whitespace nor a surrogate
passes validation and makes exactly one call, to the base URL with the key
and the percent-encoded character. -/
theorem bmp_query_one_call (eng : Engine) (u : Nat) (r : JSVal) (l : Bool) (e : JSString)
    (hw : isTrimUnit u = false) (hs : ¬ (0xD800 ≤ u ∧ u ≤ 0xDFFF)) :
    (validateInput ⟨[u], r, l, e⟩).2 = true ∧
    handleSearch eng ⟨[u], r, l, e⟩ =
      [.setLoading true, .setError (js ""), .setResult .null,
        .fetch (BASE_URL ++ js "?key=" ++ API_KEY ++ js "&word=" ++
          (if isUnreserved u then [u] else (utf8Octets u).flatMap percentOctet))] := by
  have ht : trim [u] = [u] := by simp [trim, List.dropWhile, hw]
  have hv : (validateInput ⟨[u], r, l, e⟩).2 = true := by
    simp [validateInput, ht, JSVal.truthy]
  refine ⟨hv, ?_⟩
  rw [handleSearch_valid eng _ hv]
  have h1 : ¬ (0xDC00 ≤ u ∧ u ≤ 0xDFFF) := fun h => hs ⟨by omega, h.2⟩
  have h2 : ¬ (0xD800 ≤ u ∧ u ≤ 0xDBFF) := fun h => hs ⟨h.1, by omega⟩
  by_cases hu : isUnreserved u = true
  · simp [fetchDataStart, encodeURIComponent, hu, Except.map]
  · simp [fetchDataStart, encodeURIComponent, hu, h1, h2, Except.map]

/-- Witness for `bmp_query_one_call` on the character U+6C34. -/
theorem bmp_query_one_call_witness :
    handleSearch sampleEngine sampleState =
      [.setLoading true, .setError (js ""), .setResult .null,
        .fetch (js "https://apis.tianapi.com/xhzd/index?key=&word=%E6%B0%B4")] :=
  (bmp_query_one_call sampleEngine 0x6C34 .null false [] (by decide) (by decide)).2

/-- C3 (evaluation at the failing input): the query that is the one Han
character U+20000 has two code units; it fails validation with the message
"请输入单个汉字" and no network call is made. -/
theorem astral_hanzi_rejected (eng : Engine) (r : JSVal) (l : Bool) (e : JSString) :
    js "𠀀" = utf16Units 0x20000 ∧
    (js "𠀀").length = 2 ∧
    (validateInput ⟨js "𠀀", r, l, e⟩).2 = false ∧
    handleSearch eng ⟨js "𠀀", r, l, e⟩ = [.setError (js "请输入单个汉字")] ∧
    (handleSearch eng ⟨js "𠀀", r, l, e⟩).any Effect.isFetch = false :=
  ⟨rfl, rfl, rfl, rfl, rfl⟩

/-- Counterexample for C7: type a character, click, the lookup succeeds,
clear the input, click.  The error message and the result are both
non-empty. -/
theorem error_and_result_together :
    (runEvents sampleEngine World.initial
      [.change (js "水"), .click, .complete 0 (.response true (.json samplePayload)),
        .change (js ""), .click]).ui.error = js "请输入一个汉字" ∧
    js "请输入一个汉字" ≠ [] ∧
    (runEvents sampleEngine World.initial
      [.change (js "水"), .click, .complete 0 (.response true (.json samplePayload)),
        .change (js ""), .click]).ui.result = sampleRecord ∧
    sampleRecord.truthy = true :=
  ⟨rfl, by decide, rfl, rfl⟩

/-- C7 (amended): in every state reachable from the first render by text
edits, lookup completions with any outcome, and Submits made while `loading`
is false (with a query that passes validation, or with one that fails it
while no result is stored), at most one of the error message and the result
is non-empty, and while `loading` is true the error message is empty and the
result is `null`.  A Submit whose query fails validation sets a non-empty
error message and leaves the result and `loading` as they are. -/
theorem orderly_session_invariant (eng : Engine) (w : World) (h : Reachable eng w) :
    (w.ui.error = [] ∨ w.ui.result.truthy = false) ∧
    (w.ui.loading = true → w.ui.error = [] ∧ w.ui.result = .null) ∧
    (∀ s : State, (validateInput s).2 = false →
      (s.run (handleSearch eng s)).error ≠ [] ∧
      (s.run (handleSearch eng s)).result = s.result ∧
      (s.run (handleSearch eng s)).loading = s.loading) := by
  obtain ⟨h1, h2⟩ := reachable_inv eng w h
  refine ⟨?_, fun hl => ⟨(h1 hl).1, (h1 hl).2.1⟩, ?_⟩
  · cases hl : w.ui.loading with
    | true => exact Or.inl (h1 hl).1
    | false => exact (h2 hl).2
  · intro s hv
    rcases handleSearch_cases eng s with ⟨_, m, hm, h⟩ | ⟨hv2, _⟩ | ⟨hv2, _⟩
    · rw [h]
      exact ⟨hm, rfl, rfl⟩
    · rw [hv] at hv2; exact absurd hv2 (by simp)
    · rw [hv] at hv2; exact absurd hv2 (by simp)

/-- Witness for C7 (amended): the page after typing a character and clicking. -/
theorem orderly_session_invariant_witness :
    (step sampleEngine (step sampleEngine World.initial (.change (js "水"))) .click).ui.loading
      = true ∧
    (step sampleEngine (step sampleEngine World.initial (.change (js "水"))) .click).ui.error
      = [] ∧
    (step sampleEngine (step sampleEngine World.initial (.change (js "水"))) .click).ui.result
      = .null :=
  ⟨rfl, (orderly_session_invariant sampleEngine _
      (Reachable.step _ .click (Reachable.step _ (.change (js "水")) Reachable.initial rfl)
        rfl)).2.1 rfl⟩

/-- C8 (evaluation at the failing input): type a character and press Enter
twice.  After the first Enter `loading` is true and one call is in flight;
the second Enter makes a second call. -/
theorem double_enter_two_calls (eng : Engine) :
    (runEvents eng World.initial
      [.change (js "水"), .keyPress (js "Enter")]).ui.loading = true ∧
    (runEvents eng World.initial
      [.change (js "水"), .keyPress (js "Enter")]).inflight.length = 1 ∧
    (runEvents eng World.initial
      [.change (js "水"), .keyPress (js "Enter"), .keyPress (js "Enter")]).inflight.length = 2 := by
  have hj : js "水" = [0x6C34] := by decide
  have h := fun r l e => (bmp_query_one_call eng 0x6C34 r l e (by decide) (by decide)).2
  simp [runEvents, step, handleKeyPress, handleChange, World.run, World.apply, State.apply,
    World.initial, State.initial, hj, h]

/-- One event other than a key press keeps at most one call in flight. -/
theorem single_flight_step (eng : Engine) (w : World) (ev : Event)
    (hk : ev.isKeyPress = false)
    (h1 : w.inflight.length ≤ 1) (h2 : w.ui.loading = false → w.inflight = []) :
    (step eng w ev).inflight.length ≤ 1 ∧
    ((step eng w ev).ui.loading = false → (step eng w ev).inflight = []) := by
  cases ev with
  | change value =>
    simpa [step, handleChange, World.run, World.apply, State.apply] using ⟨h1, h2⟩
  | click =>
    cases hl : w.ui.loading with
    | true => simpa [step, render, hl] using h1
    | false =>
      have hi := h2 hl
      rcases handleSearch_cases eng w.ui with ⟨_, m, _, h⟩ | ⟨_, url, h⟩ | ⟨_, err, h⟩ <;>
        simp [step, render, hl, h, World.run, World.apply, State.apply, hi]
  | keyPress key => simp [Event.isKeyPress] at hk
  | complete i o =>
    by_cases hi : i < w.inflight.length
    · have hnil : w.inflight.eraseIdx i = [] := by
        apply List.eq_nil_of_length_eq_zero
        rw [List.length_eraseIdx, if_pos hi]
        omega
      rcases fetchDataResume_cases eng o with ⟨r, h⟩ | ⟨err, h⟩ <;>
        simp [step, hi, h, World.run, World.apply, State.apply, hnil]
    · simpa [step, hi] using ⟨h1, h2⟩

/-- With the button as the only submit control (no key presses), at most one
call is in flight in every reachable state. -/
theorem click_only_single_flight (eng : Engine) (evs : List Event)
    (hk : ∀ ev ∈ evs, ev.isKeyPress = false) :
    (runEvents eng World.initial evs).inflight.length ≤ 1 := by
  have key : ∀ (evs : List Event) (w : World), (∀ ev ∈ evs, ev.isKeyPress = false) →
      w.inflight.length ≤ 1 → (w.ui.loading = false → w.inflight = []) →
      (runEvents eng w evs).inflight.length ≤ 1 := by
    intro evs
    induction evs with
    | nil => intro w _ h1 _; exact h1
    | cons ev rest ih =>
      intro w hk h1 h2
      have hs := single_flight_step eng w ev (hk ev (List.mem_cons_self _ _)) h1 h2
      exact ih (step eng w ev) (fun e he => hk e (List.mem_cons_of_mem _ he)) hs.1 hs.2
  exact key evs World.initial hk (by decide) (fun _ => rfl)

/-- Witness for `click_only_single_flight`: two clicks in a row. -/
theorem click_only_single_flight_witness :
    (runEvents sampleEngine World.initial
      [.change (js "水"), .click, .click]).inflight.length ≤ 1 :=
  click_only_single_flight sampleEngine [.change (js "水"), .click, .click]
    (by intro ev hev; simp at hev; rcases hev with rfl | rfl | rfl <;> rfl)

/-! ## Render -/

/-- Counterexample for C9: after Submit with the input "ab" the page shows
the error text and the welcome placeholder together. -/
theorem error_text_with_welcome :
    (render (State.run { State.initial with query := js "ab" }
      (handleSearch sampleEngine { State.initial with query := js "ab" }))).errorText
      = some (js "请输入单个汉字") ∧
    (render (State.run { State.initial with query := js "ab" }
      (handleSearch sampleEngine { State.initial with query := js "ab" }))).welcome = true :=
  ⟨rfl, rfl⟩

/-- C9 (amended): for every state, the button is disabled and shows the
spinner exactly when `loading` is true; the error text is shown exactly when
the error message is non-empty, whatever `loading` and the result are; the
result section is shown exactly when the result is truthy, with the
definition block exactly when `content` is truthy and the explanation block
exactly when `explain` is truthy; the welcome placeholder is shown exactly
when the result is not truthy and `loading` is false, whatever the error
message is.  So the welcome placeholder excludes the result section and the
spinner. -/
theorem render_conditions (s : State) :
    (render s).submitDisabled = s.loading ∧
    (render s).spinner = s.loading ∧
    (render s).errorText = (if s.error = [] then none else some s.error) ∧
    (render s).resultSection.isSome = s.result.truthy ∧
    (render s).resultSection.map (fun v => v.definition.isSome) =
      (if s.result.truthy then some (s.result.field "content").truthy else none) ∧
    (render s).resultSection.map (fun v => v.explanation.isSome) =
      (if s.result.truthy then some (s.result.field "explain").truthy else none) ∧
    (render s).welcome = (!s.result.truthy && !s.loading) ∧
    ¬ ((render s).welcome = true ∧ (render s).resultSection.isSome = true) ∧
    ¬ ((render s).welcome = true ∧ (render s).spinner = true) := by
  refine ⟨rfl, rfl, ?_, ?_, ?_, ?_, rfl, ?_, ?_⟩
  · cases he : s.error <;> simp [render, JSVal.truthy, he]
  · cases hr : s.result.truthy <;> simp [render, hr]
  · cases hr : s.result.truthy <;> simp [render, hr]
    cases hc : (s.result.field "content").truthy <;> simp
  · cases hr : s.result.truthy <;> simp [render, hr]
    cases hc : (s.result.field "explain").truthy <;> simp
  · cases hr : s.result.truthy <;> simp [render, hr]
  · cases hl : s.loading <;> simp [render, hl]

/-- Counterexample for C10: after Submit with the input "ab" has set an
error message, editing the text leaves the message in place. -/
theorem edit_keeps_error :
    (runEvents sampleEngine World.initial
      [.change (js "ab"), .click, .change (js "水")]).ui.error = js "请输入单个汉字" ∧
    js "请输入单个汉字" ≠ [] :=
  ⟨rfl, by decide⟩

/-- C10 (amended): setting the query text replaces the query and leaves the
error message, the result and `loading` as they are. -/
theorem handleChange_only_sets_query (s : State) (value : JSString) :
    (s.run (handleChange value)).query = value ∧
    (s.run (handleChange value)).error = s.error ∧
    (s.run (handleChange value)).result = s.result ∧
    (s.run (handleChange value)).loading = s.loading :=
  ⟨rfl, rfl, rfl, rfl⟩

end HanziDictionary
